import Mathlib

/-!
Verification development for the Clarify-Verify repository.

The definitions below are a shallow embedding of the verification and
pipeline core of the repository:
  * `src/src/verifier.py`  (class `Verifier`)
  * `src/src/pipeline.py`  (method `Pipeline.run`, step 3: the
    generate/verify/repair loop)

External effects (subprocess runs, temporary directories, the LLM-backed
generate/repair calls) are modelled by explicit environment values that
record how each external call would behave; the control flow, string
manipulation and state threading are translated line by line from the
Python source.
-/

/-- `VerificationStatus` in `verifier.py` (enum with string values). -/
inductive VerificationStatus where
  | pass
  | fail
  | error
  | skipped
deriving DecidableEq, BEq, Repr

/-- The `.value` string of a `VerificationStatus` member. -/
def statusValue : VerificationStatus → String
  | .pass => "pass"
  | .fail => "fail"
  | .error => "error"
  | .skipped => "skipped"

/-- `VerificationResult` dataclass in `verifier.py`. -/
structure VerificationResult where
  status : VerificationStatus
  tool : String
  output : String
  errors : List String
  warnings : List String
deriving DecidableEq, BEq, Repr

/-- Behaviour of one `subprocess.run` invocation: it either completes
(returning an exit code, stdout and stderr, with `text=True` both are
strings), raises `subprocess.TimeoutExpired`, or raises some other
exception whose `str` is `msg`. -/
inductive SubprocessOutcome where
  | completed (returncode : Int) (stdout : String) (stderr : String)
  | timedOut
  | raised (msg : String)
deriving DecidableEq, Repr

/-- Environment of one `_run_python_tests` call: creating the temporary
directory either fails with an exception whose `str` is `msg`, or
succeeds, in which case the pytest subprocess behaves as `sub`. -/
inductive TestsEnv where
  | tmpdirFails (msg : String)
  | tmpdirOk (sub : SubprocessOutcome)
deriving DecidableEq, Repr

/-- Message of the `TypeError` raised by evaluating
`result.returncode + result.stderr` (an `int` plus a `str`) in the
logging call at `verifier.py` line 121.  The actual CPython message quotes
the two type names; its exact text does not matter for any property
below, only that the addition raises. -/
def typeErrorMessage : String := "unsupported operand type(s) for +: int and str"

/-- Python `int + str`: always raises `TypeError`.  Modelled as an
`Except` value so the control flow of the caller stays visible. -/
def pyAddIntStr (_n : Int) (_s : String) : Except String Int :=
  Except.error typeErrorMessage

/-- The body of the inner `try` of `_run_python_tests` for a pytest
subprocess that ran to completion (`verifier.py` lines 113-138).  The
first statement models line 121,
`self.logger.info("Pytest return: %d", result.returncode + result.stderr)`,
whose argument expression raises before the pass/fail result is built. -/
def pytestCompletedBranch (returncode : Int) (stdout stderr : String) :
    Except String VerificationResult := do
  let _ ← pyAddIntStr returncode stderr
  let status := if returncode = 0 then VerificationStatus.pass else VerificationStatus.fail
  let errors := if returncode = 0 then [] else if stderr = "" then [] else [stderr]
  pure { status := status, tool := "tests", output := stdout ++ stderr,
         errors := errors, warnings := [] }

/-- Result recorded in the local variable `verification_result` of
`_run_python_tests` when the except-branch for a generic exception runs
(`verifier.py` lines 149-159). -/
def pytestRunErrorResult (msg : String) : VerificationResult :=
  { status := .error, tool := "tests",
    output := "Erro ao executar testes: " ++ msg, errors := [msg], warnings := [] }

/-- Value of the local variable `verification_result` of
`_run_python_tests` when its `finally` block runs, or `none` when no
branch assigned it (`verifier.py` lines 99-168).  All branches of the
function body end in a bare `return`, so this local is the only data the
`finally` block can return. -/
def pytestLocalResult : TestsEnv → Option VerificationResult
  | .tmpdirFails msg =>
      some { status := .error, tool := "tests",
             output := "Erro ao preparar ambiente de testes: " ++ msg,
             errors := [msg], warnings := [] }
  | .tmpdirOk (.completed rc out err) =>
      match pytestCompletedBranch rc out err with
      | Except.ok r => some r
      | Except.error msg => some (pytestRunErrorResult msg)
  | .tmpdirOk .timedOut =>
      some { status := .error, tool := "tests",
             output := "Timeout ao executar testes", errors := ["Timeout"], warnings := [] }
  | .tmpdirOk (.raised msg) => some (pytestRunErrorResult msg)

/-- `Verifier._run_python_tests`: the `finally` block (lines 169-178)
returns `verification_result` when it was assigned and a fallback
`error` result otherwise; this return overrides every bare `return` in
the `try` body. -/
def run_python_tests (env : TestsEnv) : VerificationResult :=
  match pytestLocalResult env with
  | some r => r
  | none =>
      { status := .error, tool := "tests",
        output := "Erro desconhecido ao executar testes", errors := [], warnings := [] }

/-- Behaviour of one linter subprocess invocation: completes, or the
executable is missing (`FileNotFoundError`), or it raises (this also
covers `subprocess.TimeoutExpired`, which the source catches with its
generic `except Exception` handler). -/
inductive ToolRun where
  | completed (returncode : Int) (stdout : String) (stderr : String)
  | notFound
  | raised (msg : String)
deriving DecidableEq, Repr

/-- `True` when `pat` occurs as a substring of `s` (for nonempty `pat`):
Python `pat in s`. -/
def strContains (s pat : String) : Bool := (s.splitOn pat).length != 1

/-- One step of the stdout-classification loop of `_run_pylint`
(`verifier.py` lines 212-216): a line mentioning an error goes to the
error list, else a line mentioning a warning goes to the warning list. -/
def pylintClassifyLine (acc : List String × List String) (line : String) :
    List String × List String :=
  if strContains line.toLower "error" || strContains line "E:" then
    (acc.1 ++ [line], acc.2)
  else if strContains line.toLower "warning" || strContains line "W:" then
    (acc.1, acc.2 ++ [line])
  else acc

/-- Error result built by the generic except-branch of the linter functions. -/
def linterRaisedResult (msg : String) : VerificationResult :=
  { status := .error, tool := "linter",
    output := "Erro ao executar linter: " ++ msg, errors := [msg], warnings := [] }

/-- `Verifier._run_flake8` (`verifier.py` lines 241-282). -/
def run_flake8 : ToolRun → VerificationResult
  | .completed rc out err =>
      { status := if rc = 0 then .pass else .fail, tool := "linter",
        output := out ++ err,
        errors := if out = "" then [] else out.splitOn "\n", warnings := [] }
  | .notFound =>
      { status := .skipped, tool := "linter",
        output := "Nenhum linter disponível (pylint ou flake8)",
        errors := [], warnings := [] }
  | .raised msg => linterRaisedResult msg

/-- `Verifier._run_pylint` (`verifier.py` lines 193-239): parses stdout
into errors/warnings, passes iff no error line; on `FileNotFoundError`
falls back to `_run_flake8`. -/
def run_pylint (pylintRun flake8Run : ToolRun) : VerificationResult :=
  match pylintRun with
  | .completed _rc out err =>
      let parsed := if out = "" then ([], [])
        else (out.splitOn "\n").foldl pylintClassifyLine ([], [])
      { status := if parsed.1 = [] then .pass else .fail, tool := "linter",
        output := out ++ err, errors := parsed.1, warnings := parsed.2 }
  | .notFound => run_flake8 flake8Run
  | .raised msg => linterRaisedResult msg

/-- Environment of one `Verifier.verify` call: the behaviour of the
pytest run and of the two linter executables. -/
structure CheckEnv where
  tests : TestsEnv
  pylintRun : ToolRun
  flake8Run : ToolRun

/-- `Verifier._run_tests` (`verifier.py` lines 84-95). -/
def run_tests_check (env : CheckEnv) (language : String) : VerificationResult :=
  if language = "python" then run_python_tests env.tests
  else
    { status := .skipped, tool := "tests",
      output := "Testes não suportados para esta linguagem", errors := [], warnings := [] }

/-- `Verifier._run_linter` (`verifier.py` lines 180-191). -/
def run_linter_check (env : CheckEnv) (language : String) : VerificationResult :=
  if language = "python" then run_pylint env.pylintRun env.flake8Run
  else
    { status := .skipped, tool := "linter",
      output := "Linter não suportado para esta linguagem", errors := [], warnings := [] }

/-- `Verifier._run_formal_verification` (`verifier.py` lines 284-298). -/
def run_formal_verification : VerificationResult :=
  { status := .skipped, tool := "formal",
    output := "Verificação formal não implementada ainda",
    errors := [], warnings := ["Verificação formal requer configuração adicional"] }

/-- The three constructor flags of `Verifier.__init__`. -/
structure VerifierConfig where
  run_tests : Bool
  run_linter : Bool
  run_formal : Bool

/-- `Verifier.verify` (`verifier.py` lines 53-82): appends one result
per enabled check, in the order tests, linter, formal. -/
def verify (cfg : VerifierConfig) (env : CheckEnv) (language : String) :
    List VerificationResult :=
  (if cfg.run_tests then [run_tests_check env language] else []) ++
  (if cfg.run_linter then [run_linter_check env language] else []) ++
  (if cfg.run_formal then [run_formal_verification] else [])

/-- `Verifier.get_error_summary` (`verifier.py` lines 300-309):
accumulates one entry per `fail` result, then joins with blank lines,
returning `""` when no entry was accumulated. -/
def get_error_summary (results : List VerificationResult) : String :=
  let errs := results.foldl
    (fun acc r =>
      if r.status = VerificationStatus.fail then
        acc ++ ["[" ++ r.tool ++ "] " ++ String.intercalate "\n" (r.errors.take 3)]
      else acc) []
  if errs.isEmpty then "" else String.intercalate "\n\n" errs

/-- The all-passed test (each status value equals the pass string) at `pipeline.py`
line 175. -/
def allPassed (results : List VerificationResult) : Bool :=
  results.all (fun r => statusValue r.status == "pass")

/-- Behaviour of one `CodeGenerator.generate` call: returns a
`GeneratedCode` with `code` and `tests` fields, or raises. -/
inductive GenOutcome where
  | ok (code tests : String)
  | raises
deriving DecidableEq, Repr

/-- Behaviour of one `CodeGenerator.repair_code` call: returns a
repaired code string, or raises. -/
inductive RepairOutcome where
  | ok (code : String)
  | raises
deriving DecidableEq, Repr

/-- Environment of one `Pipeline.run` loop: how the external generate,
verify and repair calls behave on each 0-based loop pass.  `verifyAt`
receives the pass index and the current code and tests, so it can in
particular be instantiated with the `verify` function above applied to
some `CheckEnv`. -/
structure LoopEnv where
  gen : Nat → GenOutcome
  verifyAt : Nat → String → String → List VerificationResult
  repair : Nat → String → String → RepairOutcome

/-- One element of the `verification_results` list built at
`pipeline.py` lines 160-172 (the per-iteration record; the source
serialises each `VerificationResult` to a dict with the same fields). -/
structure IterationRecord where
  iteration : Nat
  results : List VerificationResult
deriving DecidableEq, Repr

/-- The mutable locals of the loop of `Pipeline.run` (lines 131-134 and 137),
plus three call counters instrumenting how many times the external
generate / verify / repair calls were made. -/
structure LoopState where
  current_code : String
  current_tests : String
  verification_results : List IterationRecord
  iterations : Nat
  final_status : String
  genCalls : Nat
  verifyCalls : Nat
  repairCalls : Nat
deriving DecidableEq, Repr

/-- The loop of `Pipeline.run` (`pipeline.py` lines 136-194), starting
at 0-based pass `iteration` with `remaining` passes of
`range(max_iterations)` left to run (at entry `remaining = M`,
`iteration = 0`).  Each pass: set `iterations`, call generate (`break`
on raise), call verify and append the record, stop with `"success"`
when all outcomes pass, otherwise repair when `iteration < M - 1`
(`break` on raise) or set `"failed"` on the last pass. -/
def loopFrom (env : LoopEnv) (M : Nat) : Nat → Nat → LoopState → LoopState
  | 0, _, s => s
  | remaining + 1, iteration, s =>
    let s1 : LoopState := { s with iterations := iteration + 1 }
    match env.gen iteration with
    | GenOutcome.raises => { s1 with genCalls := s1.genCalls + 1 }
    | GenOutcome.ok code tests =>
      let s2 : LoopState :=
        { s1 with current_code := code, current_tests := tests, genCalls := s1.genCalls + 1 }
      let results := env.verifyAt iteration code tests
      let s3 : LoopState :=
        { s2 with
          verification_results :=
            s2.verification_results ++ [{ iteration := iteration + 1, results := results }],
          verifyCalls := s2.verifyCalls + 1 }
      if allPassed results then { s3 with final_status := "success" }
      else if iteration < M - 1 then
        match env.repair iteration code (get_error_summary results) with
        | RepairOutcome.raises => { s3 with repairCalls := s3.repairCalls + 1 }
        | RepairOutcome.ok newCode =>
          loopFrom env M remaining (iteration + 1)
            { s3 with current_code := newCode, repairCalls := s3.repairCalls + 1 }
      else loopFrom env M remaining (iteration + 1) { s3 with final_status := "failed" }

/-- Initial values of the loop locals (`pipeline.py` lines 86 and
131-134). -/
def initLoopState : LoopState :=
  { current_code := "", current_tests := "", verification_results := [],
    iterations := 0, final_status := "unknown",
    genCalls := 0, verifyCalls := 0, repairCalls := 0 }

/-- The generate/verify/repair loop of `Pipeline.run` with configured
maximum `M` (`self.max_iterations`), run from the initial state. -/
def pipelineRun (env : LoopEnv) (M : Nat) : LoopState :=
  loopFrom env M M 0 initLoopState

/-- A pass whose generation call raises stops the loop at once, only
setting the iteration counter (and the generate-call counter). -/
theorem loopFrom_succ_gen_raises (env : LoopEnv) (M n iteration : Nat) (s : LoopState)
    (hg : env.gen iteration = GenOutcome.raises) :
    loopFrom env M (n + 1) iteration s =
      { s with
        iterations := iteration + 1,
        genCalls := s.genCalls + 1 } := by
  simp only [loopFrom, hg]

/-- A pass whose verification outcomes all pass stops the loop with
status `"success"`, having appended exactly one record. -/
theorem loopFrom_succ_success (env : LoopEnv) (M n iteration : Nat) (s : LoopState)
    (c t : String) (hg : env.gen iteration = GenOutcome.ok c t)
    (hap : allPassed (env.verifyAt iteration c t) = true) :
    loopFrom env M (n + 1) iteration s =
      { s with
        iterations := iteration + 1,
        current_code := c,
        current_tests := t,
        verification_results :=
          s.verification_results ++ [⟨iteration + 1, env.verifyAt iteration c t⟩],
        genCalls := s.genCalls + 1,
        verifyCalls := s.verifyCalls + 1,
        final_status := "success" } := by
  simp only [loopFrom, hg, hap, if_true]

/-- A pass whose repair call raises stops the loop at once, keeping the
freshly generated code and the record of this pass. -/
theorem loopFrom_succ_repair_raises (env : LoopEnv) (M n iteration : Nat) (s : LoopState)
    (c t : String) (hg : env.gen iteration = GenOutcome.ok c t)
    (hap : allPassed (env.verifyAt iteration c t) = false)
    (hlt : iteration < M - 1)
    (hr : env.repair iteration c (get_error_summary (env.verifyAt iteration c t)) =
      RepairOutcome.raises) :
    loopFrom env M (n + 1) iteration s =
      { s with
        iterations := iteration + 1,
        current_code := c,
        current_tests := t,
        verification_results :=
          s.verification_results ++ [⟨iteration + 1, env.verifyAt iteration c t⟩],
        genCalls := s.genCalls + 1,
        verifyCalls := s.verifyCalls + 1,
        repairCalls := s.repairCalls + 1 } := by
  simp only [loopFrom, hg, hap, hlt, if_true, if_false, Bool.false_eq_true, hr]

/-- A non-final pass that fails verification and repairs successfully
continues the loop with the repaired code. -/
theorem loopFrom_succ_repair_ok (env : LoopEnv) (M n iteration : Nat) (s : LoopState)
    (c t nc : String) (hg : env.gen iteration = GenOutcome.ok c t)
    (hap : allPassed (env.verifyAt iteration c t) = false)
    (hlt : iteration < M - 1)
    (hr : env.repair iteration c (get_error_summary (env.verifyAt iteration c t)) =
      RepairOutcome.ok nc) :
    loopFrom env M (n + 1) iteration s =
      loopFrom env M n (iteration + 1)
        { s with
          iterations := iteration + 1,
          current_code := nc,
          current_tests := t,
          verification_results :=
            s.verification_results ++ [⟨iteration + 1, env.verifyAt iteration c t⟩],
          genCalls := s.genCalls + 1,
          verifyCalls := s.verifyCalls + 1,
          repairCalls := s.repairCalls + 1 } := by
  simp only [loopFrom, hg, hap, hlt, if_true, if_false, Bool.false_eq_true, hr]

/-- A final pass (`iteration ≥ M - 1`) that fails verification sets
status `"failed"` and performs no repair call. -/
theorem loopFrom_succ_last_fail (env : LoopEnv) (M n iteration : Nat) (s : LoopState)
    (c t : String) (hg : env.gen iteration = GenOutcome.ok c t)
    (hap : allPassed (env.verifyAt iteration c t) = false)
    (hnlt : ¬ iteration < M - 1) :
    loopFrom env M (n + 1) iteration s =
      loopFrom env M n (iteration + 1)
        { s with
          iterations := iteration + 1,
          current_code := c,
          current_tests := t,
          verification_results :=
            s.verification_results ++ [⟨iteration + 1, env.verifyAt iteration c t⟩],
          genCalls := s.genCalls + 1,
          verifyCalls := s.verifyCalls + 1,
          final_status := "failed" } := by
  simp only [loopFrom, hg, hap, hnlt, if_false, Bool.false_eq_true]

/-- Counting invariant of the loop: starting a run at pass `iteration`
(with `s.iterations = iteration`), some number `p` of passes execute and
some number `q ∈ {p - 1, p}` of them reach verification; `iterations`,
`genCalls`, `verifyCalls` and the record list grow accordingly, and the
only way a pass can skip verification (`p = q + 1`) is that its
generation call raised. -/
theorem loopFrom_counts (env : LoopEnv) (M : Nat) :
    ∀ (remaining iteration : Nat) (s : LoopState), s.iterations = iteration →
    ∃ p q : Nat, p ≤ remaining ∧ q ≤ p ∧ p ≤ q + 1 ∧
      (loopFrom env M remaining iteration s).iterations = iteration + p ∧
      (loopFrom env M remaining iteration s).genCalls = s.genCalls + p ∧
      (loopFrom env M remaining iteration s).verifyCalls = s.verifyCalls + q ∧
      (loopFrom env M remaining iteration s).verification_results.length
        = s.verification_results.length + q ∧
      (p = q + 1 → env.gen (iteration + q) = GenOutcome.raises) := by
  intro remaining
  induction remaining with
  | zero =>
    intro iteration s hs
    exact ⟨0, 0, Nat.le_refl 0, Nat.le_refl 0, Nat.le_succ 0,
      by simpa [loopFrom] using hs, by simp [loopFrom], by simp [loopFrom],
      by simp [loopFrom], fun h => absurd h (by omega)⟩
  | succ n ih =>
    intro iteration s _hs
    cases hg : env.gen iteration with
    | raises =>
      rw [loopFrom_succ_gen_raises env M n iteration s hg]
      exact ⟨1, 0, by omega, by omega, by omega, by simp, by simp, by simp,
        by simp, fun _ => by simpa using hg⟩
    | ok c t =>
      cases hap : allPassed (env.verifyAt iteration c t) with
      | true =>
        rw [loopFrom_succ_success env M n iteration s c t hg hap]
        exact ⟨1, 1, by omega, by omega, by omega, by simp, by simp, by simp,
          by simp, fun h => absurd h (by omega)⟩
      | false =>
        by_cases hlt : iteration < M - 1
        · cases hr : env.repair iteration c (get_error_summary (env.verifyAt iteration c t)) with
          | raises =>
            rw [loopFrom_succ_repair_raises env M n iteration s c t hg hap hlt hr]
            exact ⟨1, 1, by omega, by omega, by omega, by simp, by simp, by simp,
              by simp, fun h => absurd h (by omega)⟩
          | ok nc =>
            rw [loopFrom_succ_repair_ok env M n iteration s c t nc hg hap hlt hr]
            obtain ⟨p, q, h1, h2, h3, h4, h5, h6, h7, h8⟩ := ih (iteration + 1)
              ({ s with
                iterations := iteration + 1,
                current_code := nc,
                current_tests := t,
                verification_results :=
                  s.verification_results ++ [⟨iteration + 1, env.verifyAt iteration c t⟩],
                genCalls := s.genCalls + 1,
                verifyCalls := s.verifyCalls + 1,
                repairCalls := s.repairCalls + 1 }) rfl
            refine ⟨p + 1, q + 1, by omega, by omega, by omega, ?_, ?_, ?_, ?_, ?_⟩
            · rw [h4]; omega
            · rw [h5]; show s.genCalls + 1 + p = s.genCalls + (p + 1); omega
            · rw [h6]; show s.verifyCalls + 1 + q = s.verifyCalls + (q + 1); omega
            · rw [h7]; simp; omega
            · intro h
              rw [show iteration + (q + 1) = (iteration + 1) + q by omega]
              exact h8 (by omega)
        · rw [loopFrom_succ_last_fail env M n iteration s c t hg hap hlt]
          obtain ⟨p, q, h1, h2, h3, h4, h5, h6, h7, h8⟩ := ih (iteration + 1)
            ({ s with
              iterations := iteration + 1,
              current_code := c,
              current_tests := t,
              verification_results :=
                s.verification_results ++ [⟨iteration + 1, env.verifyAt iteration c t⟩],
              genCalls := s.genCalls + 1,
              verifyCalls := s.verifyCalls + 1,
              final_status := "failed" }) rfl
          refine ⟨p + 1, q + 1, by omega, by omega, by omega, ?_, ?_, ?_, ?_, ?_⟩
          · rw [h4]; omega
          · rw [h5]; show s.genCalls + 1 + p = s.genCalls + (p + 1); omega
          · rw [h6]; show s.verifyCalls + 1 + q = s.verifyCalls + (q + 1); omega
          · rw [h7]; simp; omega
          · intro h
            rw [show iteration + (q + 1) = (iteration + 1) + q by omega]
            exact h8 (by omega)

/-- The repair-call counter never decreases across the rest of a run. -/
theorem loopFrom_repairCalls_mono (env : LoopEnv) (M : Nat) :
    ∀ (remaining iteration : Nat) (s : LoopState),
      s.repairCalls ≤ (loopFrom env M remaining iteration s).repairCalls := by
  intro remaining
  induction remaining with
  | zero => intro iteration s; exact Nat.le_refl _
  | succ n ih =>
    intro iteration s
    cases hg : env.gen iteration with
    | raises =>
      rw [loopFrom_succ_gen_raises env M n iteration s hg]
    | ok c t =>
      cases hap : allPassed (env.verifyAt iteration c t) with
      | true =>
        rw [loopFrom_succ_success env M n iteration s c t hg hap]
      | false =>
        by_cases hlt : iteration < M - 1
        · cases hr : env.repair iteration c (get_error_summary (env.verifyAt iteration c t)) with
          | raises =>
            rw [loopFrom_succ_repair_raises env M n iteration s c t hg hap hlt hr]
            exact Nat.le_succ _
          | ok nc =>
            rw [loopFrom_succ_repair_ok env M n iteration s c t nc hg hap hlt hr]
            exact Nat.le_trans (Nat.le_succ _) (ih (iteration + 1)
              ({ s with
                iterations := iteration + 1,
                current_code := nc,
                current_tests := t,
                verification_results :=
                  s.verification_results ++ [⟨iteration + 1, env.verifyAt iteration c t⟩],
                genCalls := s.genCalls + 1,
                verifyCalls := s.verifyCalls + 1,
                repairCalls := s.repairCalls + 1 }))
        · rw [loopFrom_succ_last_fail env M n iteration s c t hg hap hlt]
          exact ih (iteration + 1)
            ({ s with
              iterations := iteration + 1,
              current_code := c,
              current_tests := t,
              verification_results :=
                s.verification_results ++ [⟨iteration + 1, env.verifyAt iteration c t⟩],
              genCalls := s.genCalls + 1,
              verifyCalls := s.verifyCalls + 1,
              final_status := "failed" })

/-- The tool field of every result `_run_python_tests` can return is
`"tests"`, on every path. -/
theorem run_python_tests_tool (env : TestsEnv) : (run_python_tests env).tool = "tests" := by
  cases env with
  | tmpdirFails msg => rfl
  | tmpdirOk sub => cases sub <;> rfl

/-- The tool field of every result the linter functions can return is
`"linter"`. -/
theorem run_pylint_tool (pr fb : ToolRun) : (run_pylint pr fb).tool = "linter" := by
  cases pr with
  | completed rc out err => rfl
  | notFound => cases fb <;> rfl
  | raised msg => rfl

/-- The tests check always reports tool `"tests"`. -/
theorem run_tests_check_tool (env : CheckEnv) (lang : String) :
    (run_tests_check env lang).tool = "tests" := by
  unfold run_tests_check
  by_cases h : lang = "python" <;> simp [h, run_python_tests_tool]

/-- The linter check always reports tool `"linter"`. -/
theorem run_linter_check_tool (env : CheckEnv) (lang : String) :
    (run_linter_check env lang).tool = "linter" := by
  unfold run_linter_check
  by_cases h : lang = "python" <;> simp [h, run_pylint_tool]

/-- Every member of a `verify` result list is one of the three checks. -/
theorem mem_verify (cfg : VerifierConfig) (env : CheckEnv) (lang : String)
    (r : VerificationResult) (hr : r ∈ verify cfg env lang) :
    r = run_tests_check env lang ∨ r = run_linter_check env lang ∨
      r = run_formal_verification := by
  unfold verify at hr
  rcases List.mem_append.1 hr with h | h
  · rcases List.mem_append.1 h with h2 | h2
    · left
      by_cases hb : cfg.run_tests <;> simp [hb] at h2
      exact h2
    · right; left
      by_cases hb : cfg.run_linter <;> simp [hb] at h2
      exact h2
  · right; right
    by_cases hb : cfg.run_formal <;> simp [hb] at h
    exact h

/-- Claim C1 (the code diverges here): a pytest subprocess that runs to
completion is recorded with status `error`, not `pass`/`fail` — the
logging call at `verifier.py` line 121 adds `result.returncode` (an
`int`) to `result.stderr` (a `str`), raising `TypeError` before the
pass/fail result of lines 123-136 is ever constructed, and the generic
handler at line 149 then records an `error` outcome. -/
theorem c1_completed_run_recorded_as_error :
    (run_python_tests (TestsEnv.tmpdirOk (SubprocessOutcome.completed 0 "5 passed" ""))).status
      = VerificationStatus.error ∧
    (run_python_tests (TestsEnv.tmpdirOk (SubprocessOutcome.completed 1 "" "1 failed"))).status
      = VerificationStatus.error ∧
    (run_python_tests (TestsEnv.tmpdirOk (SubprocessOutcome.completed 0 "5 passed" ""))).errors
      = [typeErrorMessage] ∧
    pytestCompletedBranch 0 "5 passed" "" = Except.error typeErrorMessage :=
  ⟨rfl, rfl, rfl, rfl⟩

/-- Claim C9: on every execution path — completed run, timeout,
exception while running, and failure to create the temporary directory —
`_run_python_tests` returns the `VerificationResult` constructed in that
branch (never `None`, despite the bare `return` statements), and its
tool is `"tests"`. -/
theorem c9_always_returns_tests_result (env : TestsEnv) :
    (run_python_tests env).tool = "tests" ∧
    ∃ r, pytestLocalResult env = some r ∧ run_python_tests env = r := by
  cases env with
  | tmpdirFails msg => exact ⟨rfl, _, rfl, rfl⟩
  | tmpdirOk sub =>
    cases sub with
    | completed rc out err => exact ⟨rfl, _, rfl, rfl⟩
    | timedOut => exact ⟨rfl, _, rfl, rfl⟩
    | raised msg => exact ⟨rfl, _, rfl, rfl⟩

/-- Claim C8: when pylint cannot be located the linter runner falls back
to flake8 and returns its outcome, and when flake8 is also unavailable
it returns a `skipped` linter outcome (no exception escapes: the result
is total). -/
theorem c8_linter_fallback (fb : ToolRun) :
    run_pylint ToolRun.notFound fb = run_flake8 fb ∧
    run_flake8 ToolRun.notFound =
      { status := VerificationStatus.skipped, tool := "linter",
        output := "Nenhum linter disponível (pylint ou flake8)",
        errors := [], warnings := [] } ∧
    (run_pylint ToolRun.notFound ToolRun.notFound).status = VerificationStatus.skipped :=
  ⟨rfl, rfl, rfl⟩

/-- The digest exactly as the spec words it (section 4.2): the blank-line
separated concatenation, over the outcomes whose status is `fail`, of
the tool tag followed by the first at most 3 error entries. -/
def spec_error_digest (results : List VerificationResult) : String :=
  String.intercalate "\n\n"
    ((results.filter (fun r => r.status = VerificationStatus.fail)).map
      (fun r => "[" ++ r.tool ++ "] " ++ String.intercalate "\n" (r.errors.take 3)))

/-- The accumulator loop of `get_error_summary` is a filter-then-map. -/
theorem errSummary_foldl (results : List VerificationResult) :
    ∀ acc : List String,
      results.foldl
        (fun acc r =>
          if r.status = VerificationStatus.fail then
            acc ++ ["[" ++ r.tool ++ "] " ++ String.intercalate "\n" (r.errors.take 3)]
          else acc) acc
      = acc ++ ((results.filter (fun r => r.status = VerificationStatus.fail)).map
          (fun r => "[" ++ r.tool ++ "] " ++ String.intercalate "\n" (r.errors.take 3))) := by
  induction results with
  | nil => intro acc; simp
  | cons r rs ih =>
    intro acc
    by_cases h : r.status = VerificationStatus.fail <;>
      simp [List.foldl_cons, List.filter_cons, h, ih]

/-- Claim C6: the error digest equals, for every outcome list, the
blank-line separated concatenation of the `[tool]`-tagged first at most
3 error entries of the `fail` outcomes only; `error` and `skipped`
outcomes contribute nothing and the empty list yields the empty text. -/
theorem c6_error_digest (results : List VerificationResult) :
    get_error_summary results = spec_error_digest results ∧
    get_error_summary [] = "" := by
  refine ⟨?_, rfl⟩
  unfold get_error_summary spec_error_digest
  rw [errSummary_foldl results []]
  simp only [List.nil_append]
  by_cases h :
      ((results.filter (fun r => r.status = VerificationStatus.fail)).map
        (fun r => "[" ++ r.tool ++ "] " ++ String.intercalate "\n" (r.errors.take 3))) = []
  · rw [h]; rfl
  · simp [h]

/-- Concrete check environment used in the C5 counterexample. -/
def c5CheckEnv : CheckEnv :=
  { tests := TestsEnv.tmpdirOk (SubprocessOutcome.completed 0 "" ""),
    pylintRun := ToolRun.notFound, flake8Run := ToolRun.notFound }

/-- Claim C5 fails as stated: with the tests check disabled
(`run_tests=False`, linter and formal enabled), `verify` returns only
two outcomes and none of them has tool `"tests"` — the disabled check is
omitted from the sequence, it does not appear with status `skipped`. -/
theorem c5_counterexample :
    verify ⟨false, true, true⟩ c5CheckEnv "python" =
      [run_pylint ToolRun.notFound ToolRun.notFound, run_formal_verification] ∧
    (verify ⟨false, true, true⟩ c5CheckEnv "python").length = 2 ∧
    (verify ⟨false, true, true⟩ c5CheckEnv "python").all
      (fun r => r.tool != "tests") = true :=
  ⟨rfl, rfl, by decide⟩

/-- Claim C5 as amended: `verify` returns exactly one outcome per
ENABLED check, in the fixed order tests, then linter, then formal
(disabled checks are omitted from the sequence entirely); an enabled
check that is unsupported for the language appears with status
`skipped` rather than raising, and the formal check is always
`skipped`. -/
theorem c5_amended (cfg : VerifierConfig) (env : CheckEnv) (lang : String) :
    (verify cfg env lang).map VerificationResult.tool =
      (if cfg.run_tests then ["tests"] else []) ++
      (if cfg.run_linter then ["linter"] else []) ++
      (if cfg.run_formal then ["formal"] else []) ∧
    (lang ≠ "python" → ∀ r ∈ verify cfg env lang, r.status = VerificationStatus.skipped) ∧
    run_formal_verification.status = VerificationStatus.skipped := by
  refine ⟨?_, ?_, rfl⟩
  · unfold verify
    obtain ⟨rt, rl, rf⟩ := cfg
    cases rt <;> cases rl <;> cases rf <;>
      simp [run_tests_check_tool, run_linter_check_tool, run_formal_verification]
  · intro hlang r hr
    rcases mem_verify cfg env lang r hr with rfl | rfl | rfl
    · simp [run_tests_check, hlang]
    · simp [run_linter_check, hlang]
    · rfl

/-- Concrete check environment used in the C5 witness. -/
def c5wCheckEnv : CheckEnv :=
  { tests := TestsEnv.tmpdirOk (SubprocessOutcome.completed 0 "" ""),
    pylintRun := ToolRun.notFound, flake8Run := ToolRun.notFound }

/-- Witness for the amended claim C5 at a concrete configuration: all
three checks enabled and an unsupported language. -/
theorem c5_amended_witness :
    (verify ⟨true, true, true⟩ c5wCheckEnv "go").map VerificationResult.tool =
      ["tests", "linter", "formal"] ∧
    (run_tests_check c5wCheckEnv "go").status = VerificationStatus.skipped :=
  ⟨(c5_amended ⟨true, true, true⟩ c5wCheckEnv "go").1,
   (c5_amended ⟨true, true, true⟩ c5wCheckEnv "go").2.1 (by decide)
     (run_tests_check c5wCheckEnv "go") (by simp [verify])⟩

/-- Claim C7: with a configured maximum of 0 iterations the loop makes
zero generation and zero verification calls and returns status
`"unknown"` with zero iterations and an empty record sequence (the
bound is checked before the first generation). -/
theorem c7_zero_max_iterations (env : LoopEnv) :
    pipelineRun env 0 = initLoopState ∧
    (pipelineRun env 0).genCalls = 0 ∧
    (pipelineRun env 0).verifyCalls = 0 ∧
    (pipelineRun env 0).final_status = "unknown" ∧
    (pipelineRun env 0).iterations = 0 ∧
    (pipelineRun env 0).verification_results = [] :=
  ⟨rfl, rfl, rfl, rfl, rfl, rfl⟩

/-- Loop environment whose generation call raises on every pass. -/
def c2GenRaisesEnv : LoopEnv :=
  { gen := fun _ => GenOutcome.raises,
    verifyAt := fun _ _ _ => [],
    repair := fun _ _ _ => RepairOutcome.raises }

/-- Claim C2 fails in one respect: a run aborted by a raising generation
call returns final status `"unknown"`, the very same status returned by
a zero-iteration run — the status therefore does not indicate abort (it
is, however, distinct from `"failed"` and `"success"`). -/
theorem c2_counterexample :
    (pipelineRun c2GenRaisesEnv 1).genCalls = 1 ∧
    (pipelineRun c2GenRaisesEnv 1).final_status = "unknown" ∧
    (pipelineRun c2GenRaisesEnv 0).genCalls = 0 ∧
    (pipelineRun c2GenRaisesEnv 0).final_status = "unknown" ∧
    (pipelineRun c2GenRaisesEnv 1).final_status =
      (pipelineRun c2GenRaisesEnv 0).final_status :=
  ⟨rfl, rfl, rfl, rfl, rfl⟩

/-- Claim C2 as amended: when the generation call (or the repair call)
raises, the loop stops immediately without retrying — no further
generate, verify or repair call happens — preserving the code artifact
that existed before the failing call, and the final status is
`"unknown"`, which is distinct from `"failed"` and from `"success"` but
is not a dedicated abort indicator. -/
theorem c2_amended (env : LoopEnv) (M n iteration : Nat) (s : LoopState)
    (hstat : s.final_status = "unknown") :
    (env.gen iteration = GenOutcome.raises →
      loopFrom env M (n + 1) iteration s =
        { s with
          iterations := iteration + 1,
          genCalls := s.genCalls + 1 } ∧
      (loopFrom env M (n + 1) iteration s).current_code = s.current_code ∧
      (loopFrom env M (n + 1) iteration s).verification_results = s.verification_results ∧
      (loopFrom env M (n + 1) iteration s).final_status = "unknown") ∧
    (∀ c t, env.gen iteration = GenOutcome.ok c t →
      allPassed (env.verifyAt iteration c t) = false →
      iteration < M - 1 →
      env.repair iteration c (get_error_summary (env.verifyAt iteration c t)) =
        RepairOutcome.raises →
      loopFrom env M (n + 1) iteration s =
        { s with
          iterations := iteration + 1,
          current_code := c,
          current_tests := t,
          verification_results :=
            s.verification_results ++ [⟨iteration + 1, env.verifyAt iteration c t⟩],
          genCalls := s.genCalls + 1,
          verifyCalls := s.verifyCalls + 1,
          repairCalls := s.repairCalls + 1 } ∧
      (loopFrom env M (n + 1) iteration s).current_code = c ∧
      (loopFrom env M (n + 1) iteration s).final_status = "unknown") ∧
    ("unknown" ≠ "failed" ∧ "unknown" ≠ "success") := by
  refine ⟨?_, ?_, by decide, by decide⟩
  · intro hg
    rw [loopFrom_succ_gen_raises env M n iteration s hg]
    exact ⟨rfl, rfl, rfl, hstat⟩
  · intro c t hg hap hlt hr
    rw [loopFrom_succ_repair_raises env M n iteration s c t hg hap hlt hr]
    exact ⟨rfl, rfl, hstat⟩

/-- Loop environment whose pass 0 generates successfully, fails
verification (one `skipped` outcome) and then raises during repair. -/
def c2RepairRaisesEnv : LoopEnv :=
  { gen := fun _ => GenOutcome.ok "code0" "tests0",
    verifyAt := fun _ _ _ => [run_formal_verification],
    repair := fun _ _ _ => RepairOutcome.raises }

/-- Witness for the amended claim C2: concrete aborting runs of both
kinds, via the theorem itself. -/
theorem c2_amended_witness :
    (loopFrom c2GenRaisesEnv 1 1 0 initLoopState).current_code =
      initLoopState.current_code ∧
    (loopFrom c2GenRaisesEnv 1 1 0 initLoopState).final_status = "unknown" ∧
    (loopFrom c2RepairRaisesEnv 2 2 0 initLoopState).current_code = "code0" ∧
    (loopFrom c2RepairRaisesEnv 2 2 0 initLoopState).final_status = "unknown" :=
  ⟨((c2_amended c2GenRaisesEnv 1 0 0 initLoopState rfl).1 rfl).2.1,
   ((c2_amended c2GenRaisesEnv 1 0 0 initLoopState rfl).1 rfl).2.2.2,
   ((c2_amended c2RepairRaisesEnv 2 1 0 initLoopState rfl).2.1 "code0" "tests0"
      rfl (by decide) (by decide) rfl).2.1,
   ((c2_amended c2RepairRaisesEnv 2 1 0 initLoopState rfl).2.1 "code0" "tests0"
      rfl (by decide) (by decide) rfl).2.2⟩

/-- Loop environment used to refute claim C3 (generation raises at
once). -/
def c3AbortEnv : LoopEnv :=
  { gen := fun _ => GenOutcome.raises,
    verifyAt := fun _ _ _ => [],
    repair := fun _ _ _ => RepairOutcome.raises }

/-- Claim C3 fails as stated: in a run whose first generation call
raises, the loop pass increments the reported iteration count to 1 but
appends no iteration record, so the record-sequence length (0) differs
from the reported number of iterations (1). -/
theorem c3_counterexample :
    (pipelineRun c3AbortEnv 1).iterations = 1 ∧
    (pipelineRun c3AbortEnv 1).verification_results.length = 0 ∧
    (pipelineRun c3AbortEnv 1).verification_results.length ≠
      (pipelineRun c3AbortEnv 1).iterations :=
  ⟨rfl, rfl, by decide⟩

/-- Claim C3 as amended: the record-sequence length never exceeds the
reported iterations, which never exceed the configured maximum; every
loop pass that reaches verification (including one whose repair raises)
appends exactly one record, and the only possible deficit is a single
final pass whose generation call raised — in that case the length is
the iteration count minus one. -/
theorem c3_amended (env : LoopEnv) (M : Nat) :
    (pipelineRun env M).iterations ≤ M ∧
    (pipelineRun env M).verification_results.length ≤ (pipelineRun env M).iterations ∧
    (pipelineRun env M).iterations ≤ (pipelineRun env M).verification_results.length + 1 ∧
    (pipelineRun env M).verification_results.length = (pipelineRun env M).verifyCalls ∧
    (pipelineRun env M).genCalls = (pipelineRun env M).iterations ∧
    ((pipelineRun env M).iterations = (pipelineRun env M).verification_results.length + 1 →
      env.gen ((pipelineRun env M).verification_results.length) = GenOutcome.raises) := by
  obtain ⟨p, q, h1, h2, h3, h4, h5, h6, h7, h8⟩ :=
    loopFrom_counts env M M 0 initLoopState rfl
  unfold pipelineRun
  have e1 : initLoopState.genCalls = 0 := rfl
  have e2 : initLoopState.verifyCalls = 0 := rfl
  have e3 : initLoopState.verification_results.length = 0 := rfl
  rw [e1] at h5
  rw [e2] at h6
  rw [e3] at h7
  refine ⟨by omega, by omega, by omega, by omega, by omega, ?_⟩
  intro h
  have hq : (loopFrom env M M 0 initLoopState).verification_results.length = q := by omega
  rw [hq]
  have hpq : p = q + 1 := by omega
  simpa using h8 hpq

/-- Witness for the amended claim C3 at a concrete aborting run. -/
theorem c3_amended_witness :
    (pipelineRun c3AbortEnv 1).iterations ≤ 1 ∧
    c3AbortEnv.gen ((pipelineRun c3AbortEnv 1).verification_results.length) =
      GenOutcome.raises :=
  ⟨(c3_amended c3AbortEnv 1).1, (c3_amended c3AbortEnv 1).2.2.2.2.2 rfl⟩

/-- Claim C4: a tests check whose subprocess exceeds its time bound
yields status `error` (not `fail`) with error text exactly `"Timeout"`;
when such an outcome is among the verification results of a non-final
pass, the pass is not all-passed and the loop proceeds to a repair
call. -/
theorem c4_timeout_error_and_repair (env : LoopEnv) (M n iteration : Nat) (s : LoopState)
    (c t : String) (hg : env.gen iteration = GenOutcome.ok c t)
    (hmem : run_python_tests (TestsEnv.tmpdirOk SubprocessOutcome.timedOut) ∈
      env.verifyAt iteration c t)
    (hlt : iteration < M - 1) :
    (run_python_tests (TestsEnv.tmpdirOk SubprocessOutcome.timedOut)).status =
      VerificationStatus.error ∧
    (run_python_tests (TestsEnv.tmpdirOk SubprocessOutcome.timedOut)).status ≠
      VerificationStatus.fail ∧
    (run_python_tests (TestsEnv.tmpdirOk SubprocessOutcome.timedOut)).errors = ["Timeout"] ∧
    allPassed (env.verifyAt iteration c t) = false ∧
    s.repairCalls + 1 ≤ (loopFrom env M (n + 1) iteration s).repairCalls := by
  have hap : allPassed (env.verifyAt iteration c t) = false := by
    cases h : allPassed (env.verifyAt iteration c t) with
    | false => rfl
    | true =>
      exfalso
      have hbad := List.all_eq_true.1 h _ hmem
      exact absurd hbad (by decide)
  refine ⟨rfl, by decide, rfl, hap, ?_⟩
  cases hr : env.repair iteration c (get_error_summary (env.verifyAt iteration c t)) with
  | raises =>
    rw [loopFrom_succ_repair_raises env M n iteration s c t hg hap hlt hr]
  | ok nc =>
    rw [loopFrom_succ_repair_ok env M n iteration s c t nc hg hap hlt hr]
    exact loopFrom_repairCalls_mono env M n (iteration + 1)
      { s with
        iterations := iteration + 1,
        current_code := nc,
        current_tests := t,
        verification_results :=
          s.verification_results ++ [⟨iteration + 1, env.verifyAt iteration c t⟩],
        genCalls := s.genCalls + 1,
        verifyCalls := s.verifyCalls + 1,
        repairCalls := s.repairCalls + 1 }

/-- Loop environment used in the C4 witness: generation succeeds, the
only verification outcome is a timed-out tests check, repair raises. -/
def c4Env : LoopEnv :=
  { gen := fun _ => GenOutcome.ok "c0" "t0",
    verifyAt := fun _ _ _ => [run_python_tests (TestsEnv.tmpdirOk SubprocessOutcome.timedOut)],
    repair := fun _ _ _ => RepairOutcome.raises }

/-- Witness for claim C4 at a concrete run with maximum 2. -/
theorem c4_witness :
    (run_python_tests (TestsEnv.tmpdirOk SubprocessOutcome.timedOut)).errors = ["Timeout"] ∧
    allPassed (c4Env.verifyAt 0 "c0" "t0") = false ∧
    initLoopState.repairCalls + 1 ≤ (loopFrom c4Env 2 2 0 initLoopState).repairCalls := by
  have h := c4_timeout_error_and_repair c4Env 2 1 0 initLoopState "c0" "t0" rfl
    (by simp [c4Env]) (by decide)
  exact ⟨h.2.2.1, h.2.2.2.1, h.2.2.2.2⟩

/-- Claim C10: with all three checks disabled `verify` returns the
empty outcome list, and a loop run with maximum at least 1, a
successful first generation and that empty verification result stops
after iteration 1 with status `"success"`: the empty list vacuously
passes the all-passed test. -/
theorem c10_all_disabled_success (env : LoopEnv) (cenv : CheckEnv) (lang : String)
    (M : Nat) (c t : String) (hM : 1 ≤ M)
    (hgen : env.gen 0 = GenOutcome.ok c t)
    (hver : env.verifyAt 0 c t = verify ⟨false, false, false⟩ cenv lang) :
    verify ⟨false, false, false⟩ cenv lang = [] ∧
    (pipelineRun env M).final_status = "success" ∧
    (pipelineRun env M).iterations = 1 ∧
    (pipelineRun env M).verification_results = [⟨1, []⟩] ∧
    (pipelineRun env M).genCalls = 1 ∧
    (pipelineRun env M).verifyCalls = 1 := by
  have hempty : verify ⟨false, false, false⟩ cenv lang = [] := rfl
  have hv : env.verifyAt 0 c t = [] := by rw [hver, hempty]
  obtain ⟨m, rfl⟩ : ∃ m, M = m + 1 := ⟨M - 1, by omega⟩
  unfold pipelineRun
  rw [loopFrom_succ_success env (m + 1) m 0 initLoopState c t hgen (by rw [hv]; rfl)]
  refine ⟨hempty, rfl, rfl, ?_, rfl, rfl⟩
  show initLoopState.verification_results ++ [⟨0 + 1, env.verifyAt 0 c t⟩] = [⟨1, []⟩]
  rw [hv]
  rfl

/-- Loop environment used in the C10 witness. -/
def c10Env : LoopEnv :=
  { gen := fun _ => GenOutcome.ok "cc" "tt",
    verifyAt := fun _ _ _ => [],
    repair := fun _ _ _ => RepairOutcome.raises }

/-- Concrete check environment used in the C10 witness. -/
def c10CheckEnv : CheckEnv :=
  { tests := TestsEnv.tmpdirOk (SubprocessOutcome.completed 0 "" ""),
    pylintRun := ToolRun.notFound, flake8Run := ToolRun.notFound }

/-- Witness for claim C10 at a concrete run with maximum 3. -/
theorem c10_witness :
    verify ⟨false, false, false⟩ c10CheckEnv "python" = [] ∧
    (pipelineRun c10Env 3).final_status = "success" ∧
    (pipelineRun c10Env 3).iterations = 1 :=
  ⟨(c10_all_disabled_success c10Env c10CheckEnv "python" 3 "cc" "tt" (by omega) rfl rfl).1,
   (c10_all_disabled_success c10Env c10CheckEnv "python" 3 "cc" "tt" (by omega) rfl rfl).2.1,
   (c10_all_disabled_success c10Env c10CheckEnv "python" 3 "cc" "tt" (by omega) rfl rfl).2.2.1⟩
